import Mathlib

/-!
Verification of the `custom_biketrax` client against its specification.

The development shallowly embeds the two core modules of the repository:

* `aiobiketrax/models.py` — record types (`Passport`, `DeviceAttributes`,
  `Device`, `PositionAttributes`, `Position`, `SessionAttributes`, `Session`,
  `Subscription`, `Trip`) with their `from_dict` decoders and `to_dict`
  encoders over an untyped JSON-like value type;
* `aiobiketrax/client.py` — the `Account` cache (four mappings keyed by
  device id), the mutating operations of the `Device` view
  (`set_guarded`, `set_stolen`, `set_tracking_enabled`), `update_devices`,
  and the websocket supervisor loop `update_task` (error counter and
  backoff behaviour).

Python conventions used in the embedding:

* Python's `None` is the JSON value `JVal.null`; `dict.get(k)` returns
  `None` when `k` is absent, `dict.get(k, d)` returns `d`.
* a failed `assert` in a helper (`from_str`, `from_int`, ...) raises; such
  decoders are modelled as `Option`-valued functions, `none` meaning the
  exception.
* Python `float` is modelled by `ℚ` (no claim here depends on rounding).
* a `datetime` object is modelled by its canonical ISO-8601 string
  (`PyDateTime.iso`): `isoformat` returns that string, and
  `dateutil.parser.parse` applied to an `isoformat` output returns an
  equal `datetime`, so parsing the string recovers the value.
-/

/-- Untyped JSON-like values exchanged with the BikeTrax API
(Python objects fed to `from_dict` / produced by `to_dict`). -/
inductive JVal where
  | null : JVal
  | bool : Bool → JVal
  | int : Int → JVal
  | float : ℚ → JVal
  | str : String → JVal
  | list : List JVal → JVal
  | obj : List (String × JVal) → JVal

/-- Key lookup in a Python dict literal (keys are unique in every dict the
encoders build, so first match is the match). -/
def JObj.find? : List (String × JVal) → String → Option JVal
  | [], _ => none
  | (k, v) :: rest, key => if key = k then some v else JObj.find? rest key

/-- Python `obj.get(key)`: the value, or `None` when the key is absent. -/
def pyGet (o : List (String × JVal)) (key : String) : JVal :=
  (JObj.find? o key).getD JVal.null

/-- Python `obj.get(key, default)`: the value, or `default` when absent. -/
def pyGetD (o : List (String × JVal)) (key : String) (d : JVal) : JVal :=
  (JObj.find? o key).getD d

/-- models.py `from_str`: asserts the value is a `str`. -/
def from_str : JVal → Option String
  | .str s => some s
  | _ => none

/-- models.py `from_bool`: asserts the value is a `bool`. -/
def from_bool : JVal → Option Bool
  | .bool b => some b
  | _ => none

/-- models.py `from_int`: asserts the value is an `int` and not a `bool`
(Python `bool` is a subclass of `int`; the guard rejects it). -/
def from_int : JVal → Option Int
  | .int n => some n
  | _ => none

/-- models.py `from_float`: accepts `float` or `int` (not `bool`) and
converts to `float`. -/
def from_float : JVal → Option ℚ
  | .float q => some q
  | .int n => some (n : ℚ)
  | _ => none

/-- models.py `from_none`: asserts the value is `None` and returns it. -/
def from_none : JVal → Option JVal
  | .null => some .null
  | _ => none

/-- models.py `from_list(f, x)`: asserts `x` is a list and maps `f` over it
(the comprehension fails as soon as one element fails). -/
def from_list (f : JVal → Option α) : JVal → Option (List α)
  | .list xs => mapList f xs
  | _ => none
where
  /-- Elementwise run of the decoder over the Python list. -/
  mapList (f : JVal → Option α) : List JVal → Option (List α)
    | [] => some []
    | x :: xs => do
      let y ← f x
      let ys ← mapList f xs
      some (y :: ys)

/-- models.py `from_union([from_bool, from_none], x)` for `Optional[bool]`
fields: a `bool` decodes to itself, `None` to the no-value sentinel. -/
def from_union_bool_none : JVal → Option (Option Bool)
  | .bool b => some (some b)
  | .null => some none
  | _ => none

/-- models.py `from_union([from_str, from_none], x)` for `Optional[str]`. -/
def from_union_str_none : JVal → Option (Option String)
  | .str s => some (some s)
  | .null => some none
  | _ => none

/-- models.py `from_union([from_int, from_none], x)` for `Optional[int]`. -/
def from_union_int_none : JVal → Option (Option Int)
  | .int n => some (some n)
  | .null => some none
  | _ => none

/-- Encoding direction of `from_union([f, from_none], field)` on an
`Optional[bool]` field of a dataclass: a present value is written as a
`bool`, an absent one as `None`. -/
def to_union_bool_none : Option Bool → JVal
  | some b => .bool b
  | none => .null

/-- Encoding direction for `Optional[str]` fields. -/
def to_union_str_none : Option String → JVal
  | some s => .str s
  | none => .null

/-- Encoding direction for `Optional[int]` fields. -/
def to_union_int_none : Option Int → JVal
  | some n => .int n
  | none => .null

/-- A Python `datetime`, modelled by its canonical ISO-8601 serialization
(`datetime.isoformat()`); `dateutil.parser.parse` on that string returns an
equal `datetime`. -/
structure PyDateTime where
  iso : String
deriving DecidableEq

/-- models.py `from_datetime`: `dateutil.parser.parse(x)` — accepts a date
string, raises on `None` or any non-string value. -/
def from_datetime : JVal → Option PyDateTime
  | .str s => some ⟨s⟩
  | _ => none

/-- `datetime.isoformat()` as used by every `to_dict`. -/
def PyDateTime.isoformat (t : PyDateTime) : JVal := .str t.iso

/-! Python `str` on an `int` and `int` on a `str`, needed because
`Passport.from_dict` decodes `price` with `int(from_str(...))` and
`Passport.to_dict` encodes it with `from_str(str(self.price))`. -/

/-- Decimal digits of a natural number, most significant first
(the digits of Python `str(n)` for `n ≥ 0`). -/
def natDigits (n : Nat) : List Nat :=
  if h : n < 10 then [n] else natDigits (n / 10) ++ [n % 10]
decreasing_by
  exact Nat.div_lt_self (by omega) (by omega)

/-- A decimal digit as a character. -/
def digitChar (d : Nat) : Char := Char.ofNat (48 + d)

/-- A character as a decimal digit, when it is one. -/
def charDigit? (c : Char) : Option Nat :=
  if 48 ≤ c.toNat ∧ c.toNat ≤ 57 then some (c.toNat - 48) else none

/-- Horner accumulation of decimal digits read from characters
(the digit loop inside Python `int(str)`). -/
def parseDigits : List Char → Nat → Option Nat
  | [], acc => some acc
  | c :: cs, acc =>
    match charDigit? c with
    | some d => parseDigits cs (10 * acc + d)
    | none => none

/-- Python `str` on an `int`: minus sign for negatives, then the digits. -/
def pyStr (n : Int) : String :=
  if n < 0 then ⟨'-' :: (natDigits n.natAbs).map digitChar⟩
  else ⟨(natDigits n.natAbs).map digitChar⟩

/-- Run of decimal digits after an optional minus sign: at least one digit
is required (Python `int("")` and `int("-")` raise). -/
def pyNatDigits : List Char → Option Nat
  | [] => none
  | c :: cs => parseDigits (c :: cs) 0

/-- Python `int` on the characters of a `str`: optional minus sign, then at
least one decimal digit; anything else raises `ValueError` (`none`). -/
def pyIntChars : List Char → Option Int
  | [] => none
  | c :: cs =>
    if c = '-' then (pyNatDigits cs).map (fun (m : Nat) => -(m : Int))
    else (parseDigits (c :: cs) 0).map (fun (m : Nat) => (m : Int))

/-- Python `int` on a `str`. -/
def pyInt? (s : String) : Option Int := pyIntChars s.data

theorem charDigit_digitChar (d : Nat) (h : d < 10) :
    charDigit? (digitChar d) = some d := by
  interval_cases d <;> decide

theorem parseDigits_append (ds es : List Char) :
    ∀ acc, parseDigits (ds ++ es) acc =
      (parseDigits ds acc).bind (fun m => parseDigits es m) := by
  induction ds with
  | nil =>
    intro acc
    simp [parseDigits]
  | cons c cs ih =>
    intro acc
    simp only [List.cons_append, parseDigits]
    cases hc : charDigit? c with
    | none => simp
    | some d => simp [ih]

theorem parseDigits_natDigits (n : Nat) :
    ∀ acc, parseDigits ((natDigits n).map digitChar) acc =
      some (acc * 10 ^ (natDigits n).length + n) := by
  induction n using natDigits.induct with
  | case1 n h =>
    intro acc
    rw [natDigits, dif_pos h]
    simp [parseDigits, charDigit_digitChar n h]
    omega
  | case2 n h ih =>
    intro acc
    have hm : n % 10 < 10 := Nat.mod_lt _ (by omega)
    rw [natDigits, dif_neg h]
    rw [List.map_append, parseDigits_append]
    rw [ih acc]
    simp only [List.map, Option.some_bind, parseDigits, charDigit_digitChar _ hm,
      List.length_append, List.length_map, List.length_cons, List.length_nil]
    congr 1
    have hd : 10 * (n / 10) + n % 10 = n := by omega
    have hring : 10 * (acc * 10 ^ (natDigits (n / 10)).length + n / 10) + n % 10 =
        acc * (10 ^ (natDigits (n / 10)).length * 10) + (10 * (n / 10) + n % 10) := by
      ring
    rw [hring, hd, ← pow_succ]

theorem parseDigits_natDigits_zero (n : Nat) :
    parseDigits ((natDigits n).map digitChar) 0 = some n := by
  have := parseDigits_natDigits n 0
  simpa using this

/-- `natDigits` never produces the empty list, and its head is a digit, so
the printed string of a nonnegative int never starts with a minus sign. -/
theorem natDigits_head_digit (n : Nat) :
    ∃ d ds, (natDigits n).map digitChar = digitChar d :: ds ∧ d < 10 := by
  rw [natDigits]
  split
  · exact ⟨n, [], by simp, by omega⟩
  · rcases h : (natDigits (n / 10)).map digitChar with _ | ⟨c, cs⟩
    · cases hh : natDigits (n / 10) with
      | nil =>
        exfalso
        rw [natDigits] at hh
        split at hh <;> simp_all
      | cons a as => simp [hh] at h
    · have hd : ∃ d ds, (natDigits (n / 10)).map digitChar = digitChar d :: ds ∧ d < 10 :=
        natDigits_head_digit (n / 10)
      rcases hd with ⟨d, ds, hds, hdlt⟩
      refine ⟨d, ds ++ [digitChar (n % 10)], ?_, hdlt⟩
      simp [hds]
decreasing_by
  exact Nat.div_lt_self (by omega) (by omega)

theorem digitChar_ne_minus (d : Nat) (h : d < 10) : digitChar d ≠ '-' := by
  intro hc
  have h1 := charDigit_digitChar d h
  rw [hc] at h1
  simp [charDigit?] at h1

theorem pyInt_pyStr (n : Int) : pyInt? (pyStr n) = some n := by
  rcases natDigits_head_digit n.natAbs with ⟨d, ds, hds, hdlt⟩
  have hparse := parseDigits_natDigits_zero n.natAbs
  rw [hds] at hparse
  by_cases hn : n < 0
  · simp only [pyStr, if_pos hn, pyInt?]
    rw [hds]
    simp [pyIntChars, pyNatDigits, hparse]
    simp [abs_of_neg hn]
  · simp only [pyStr, if_neg hn, pyInt?]
    rw [hds]
    simp [pyIntChars, pyNatDigits, digitChar_ne_minus d hdlt, hparse]
    omega

/-! The record model of `aiobiketrax/models.py`. Field types follow the
values the decoders actually produce (e.g. `Device.category` is annotated
`None` in the source but `from_dict` assigns it a `str`). Fields that are
decoded with `from_none` always hold Python `None` and are modelled as
`Unit` fields; their encoders write `None`. Each `from_dict` runs a
sequence of field decoders and succeeds only when all of them do (in
Python the first failing assertion raises); the decoders are pure, so the
sequential source is modelled by one simultaneous match on all field
results. -/

/-- models.py `Passport`. -/
structure Passport where
  bike_pictures : List String
  bike_type : String
  colour : String
  engine : String
  frame_number : String
  insurance : Bool
  manufacturer : String
  model : String
  price : Int
  receipt_pictures : List String

/-- models.py `Passport.from_dict`. `price` is decoded with
`int(from_str(obj.get("price", "Unknown")))`. -/
def Passport.from_dict : JVal → Option Passport
  | .obj o =>
    match from_list from_str (pyGet o "bikePictures"),
      from_str (pyGetD o "bikeType" (.str "Unknown")),
      from_str (pyGetD o "colour" (.str "Unknown")),
      from_str (pyGetD o "engine" (.str "Unknown")),
      from_str (pyGetD o "frameNumber" (.str "Unknown")),
      from_bool (pyGetD o "insurance" (.bool false)),
      from_str (pyGetD o "manufacturer" (.str "Unknown")),
      from_str (pyGetD o "model" (.str "Unknown")),
      (from_str (pyGetD o "price" (.str "Unknown"))).bind pyInt?,
      from_list from_str (pyGetD o "receiptPictures" (.str "Unknown")) with
    | some bike_pictures, some bike_type, some colour, some engine,
      some frame_number, some insurance, some manufacturer, some model,
      some price, some receipt_pictures =>
      some ⟨bike_pictures, bike_type, colour, engine, frame_number,
        insurance, manufacturer, model, price, receipt_pictures⟩
    | _, _, _, _, _, _, _, _, _, _ => none
  | _ => none

/-- models.py `Passport.to_dict`. -/
def Passport.to_dict (p : Passport) : JVal :=
  .obj [("bikePictures", .list (p.bike_pictures.map .str)),
    ("bikeType", .str p.bike_type),
    ("colour", .str p.colour),
    ("engine", .str p.engine),
    ("frameNumber", .str p.frame_number),
    ("insurance", .bool p.insurance),
    ("manufacturer", .str p.manufacturer),
    ("model", .str p.model),
    ("price", .str (pyStr p.price)),
    ("receiptPictures", .list (p.receipt_pictures.map .str))]

/-- models.py `DeviceAttributes`. -/
structure DeviceAttributes where
  alarm : Bool
  auto_guard : Bool
  geofence_radius : Int
  guarded : Bool
  guard_type : String
  last_alarm : Int
  passport : Passport
  trial_end : PyDateTime
  stolen : Option Bool

/-- models.py `DeviceAttributes.from_dict`. -/
def DeviceAttributes.from_dict : JVal → Option DeviceAttributes
  | .obj o =>
    match from_bool (pyGet o "alarm"),
      from_bool (pyGet o "autoGuard"),
      from_int (pyGet o "geofenceRadius"),
      from_bool (pyGet o "guarded"),
      from_str (pyGet o "guardType"),
      from_int (pyGet o "lastAlarm"),
      Passport.from_dict (pyGet o "passport"),
      from_datetime (pyGet o "trialEnd"),
      from_union_bool_none (pyGet o "stolen") with
    | some alarm, some auto_guard, some geofence_radius, some guarded,
      some guard_type, some last_alarm, some passport, some trial_end,
      some stolen =>
      some ⟨alarm, auto_guard, geofence_radius, guarded, guard_type,
        last_alarm, passport, trial_end, stolen⟩
    | _, _, _, _, _, _, _, _, _ => none
  | _ => none

/-- models.py `DeviceAttributes.to_dict`. -/
def DeviceAttributes.to_dict (a : DeviceAttributes) : JVal :=
  .obj [("alarm", .bool a.alarm),
    ("autoGuard", .bool a.auto_guard),
    ("geofenceRadius", .int a.geofence_radius),
    ("guarded", .bool a.guarded),
    ("guardType", .str a.guard_type),
    ("lastAlarm", .int a.last_alarm),
    ("passport", a.passport.to_dict),
    ("trialEnd", a.trial_end.isoformat),
    ("stolen", to_union_bool_none a.stolen)]

/-- models.py `Device`. `bike_id` is decoded from key `"id"`; `to_dict`
writes it back under key `"bike_id"`. -/
structure Device where
  attributes : DeviceAttributes
  category : String
  contact : String
  disabled : Bool
  geofence_ids : List JVal
  group_id : Int
  bike_id : Int
  last_update : PyDateTime
  model : String
  name : String
  phone : String
  position_id : Int
  status : String
  unique_id : String

/-- models.py `Device.from_dict` (reads the identifier from key `"id"`). -/
def Device.from_dict : JVal → Option Device
  | .obj o =>
    match DeviceAttributes.from_dict (pyGet o "attributes"),
      from_str (pyGetD o "category" (.str "Unknown")),
      from_str (pyGetD o "contact" (.str "Unknown")),
      from_bool (pyGetD o "disabled" (.bool false)),
      from_list some (pyGet o "geofenceIds"),
      from_int (pyGet o "groupId"),
      from_int (pyGet o "id"),
      from_datetime (pyGet o "lastUpdate"),
      from_str (pyGetD o "model" (.str "Unknown")),
      from_str (pyGetD o "name" (.str "Unknown")),
      from_str (pyGetD o "phone" (.str "Unknown")),
      from_int (pyGet o "positionId"),
      from_str (pyGetD o "status" (.str "Unknown")),
      from_str (pyGetD o "uniqueId" (.str "Unknown")) with
    | some attributes, some category, some contact, some disabled,
      some geofence_ids, some group_id, some bike_id, some last_update,
      some model, some name, some phone, some position_id, some status,
      some unique_id =>
      some ⟨attributes, category, contact, disabled, geofence_ids, group_id,
        bike_id, last_update, model, name, phone, position_id, status,
        unique_id⟩
    | _, _, _, _, _, _, _, _, _, _, _, _, _, _ => none
  | _ => none

/-- models.py `Device.to_dict` (writes the identifier under key
`"bike_id"`, not `"id"`). -/
def Device.to_dict (d : Device) : JVal :=
  .obj [("attributes", d.attributes.to_dict),
    ("category", .str d.category),
    ("contact", .str d.contact),
    ("disabled", .bool d.disabled),
    ("geofenceIds", .list d.geofence_ids),
    ("groupId", .int d.group_id),
    ("bike_id", .int d.bike_id),
    ("lastUpdate", d.last_update.isoformat),
    ("model", .str d.model),
    ("name", .str d.name),
    ("phone", .str d.phone),
    ("positionId", .int d.position_id),
    ("status", .str d.status),
    ("uniqueId", .str d.unique_id)]

/-- models.py `PositionAttributes`. -/
structure PositionAttributes where
  battery_level : Int
  charge : Bool
  distance : ℚ
  hours : Int
  ignition : Bool
  motion : Bool
  status : Int
  total_distance : ℚ
  alarm : Option String
  armed : Option Bool
  index : Option Int

/-- models.py `PositionAttributes.from_dict`. -/
def PositionAttributes.from_dict : JVal → Option PositionAttributes
  | .obj o =>
    match from_int (pyGet o "batteryLevel"),
      from_bool (pyGet o "charge"),
      from_float (pyGet o "distance"),
      from_int (pyGet o "hours"),
      from_bool (pyGet o "ignition"),
      from_bool (pyGet o "motion"),
      from_int (pyGet o "status"),
      from_float (pyGet o "totalDistance"),
      from_union_str_none (pyGet o "alarm"),
      from_union_bool_none (pyGet o "armed"),
      from_union_int_none (pyGet o "index") with
    | some battery_level, some charge, some distance, some hours,
      some ignition, some motion, some status, some total_distance,
      some alarm, some armed, some index =>
      some ⟨battery_level, charge, distance, hours, ignition, motion,
        status, total_distance, alarm, armed, index⟩
    | _, _, _, _, _, _, _, _, _, _, _ => none
  | _ => none

/-- models.py `PositionAttributes.to_dict`. -/
def PositionAttributes.to_dict (a : PositionAttributes) : JVal :=
  .obj [("batteryLevel", .int a.battery_level),
    ("charge", .bool a.charge),
    ("distance", .float a.distance),
    ("hours", .int a.hours),
    ("ignition", .bool a.ignition),
    ("motion", .bool a.motion),
    ("status", .int a.status),
    ("totalDistance", .float a.total_distance),
    ("alarm", to_union_str_none a.alarm),
    ("armed", to_union_bool_none a.armed),
    ("index", to_union_int_none a.index)]

/-- models.py `Position`. `bike_id` is decoded from key `"id"`. The
`address`, `network` and `type` fields are decoded with `from_none` and
always hold `None` (the dataclass field is named `type`; `bike_type` is
only a local variable inside `from_dict`). -/
structure Position where
  accuracy : ℚ
  address : Unit
  altitude : ℚ
  attributes : PositionAttributes
  course : ℚ
  device_id : Int
  device_time : PyDateTime
  fix_time : PyDateTime
  bike_id : Int
  latitude : ℚ
  longitude : ℚ
  network : Unit
  outdated : Bool
  protocol : String
  server_time : PyDateTime
  speed : ℚ
  type : Unit
  valid : Bool

/-- Python attribute access `self.bike_type` on a `Position`
(models.py line 402): the dataclass has no attribute `bike_type` — its
field is named `type` — so the access raises `AttributeError` on every
call. -/
def Position.attr_bike_type (_ : Position) : Option JVal := none

/-- models.py `Position.from_dict` (reads the identifier from key `"id"`). -/
def Position.from_dict : JVal → Option Position
  | .obj o =>
    match from_float (pyGet o "accuracy"),
      from_none (pyGet o "address"),
      from_float (pyGet o "altitude"),
      PositionAttributes.from_dict (pyGet o "attributes"),
      from_float (pyGet o "course"),
      from_int (pyGet o "deviceId"),
      from_datetime (pyGet o "deviceTime"),
      from_datetime (pyGet o "fixTime"),
      from_int (pyGet o "id"),
      from_float (pyGet o "latitude"),
      from_float (pyGet o "longitude"),
      from_none (pyGet o "network"),
      from_bool (pyGet o "outdated"),
      from_str (pyGet o "protocol"),
      from_datetime (pyGet o "serverTime"),
      from_float (pyGet o "speed"),
      from_none (pyGet o "type"),
      from_bool (pyGet o "valid") with
    | some accuracy, some _, some altitude, some attributes, some course,
      some device_id, some device_time, some fix_time, some bike_id,
      some latitude, some longitude, some _, some outdated, some protocol,
      some server_time, some speed, some _, some valid =>
      some ⟨accuracy, (), altitude, attributes, course, device_id,
        device_time, fix_time, bike_id, latitude, longitude, (), outdated,
        protocol, server_time, speed, (), valid⟩
    | _, _, _, _, _, _, _, _, _, _, _, _, _, _, _, _, _, _ => none
  | _ => none

/-- models.py `Position.to_dict`: builds the dict entry by entry; the
`"type"` entry evaluates `from_none(self.bike_type)`, and the attribute
access `self.bike_type` raises `AttributeError` (the field is named
`type`), so every call fails there and the encode raises before the
`"valid"` entry — and before any decode of the result could run. Had the
access succeeded, the identifier would have been written under key
`"bike_id"`, not `"id"`. -/
def Position.to_dict (p : Position) : Option JVal :=
  match p.attr_bike_type with
  | some bike_type =>
    match from_none bike_type with
    | some v =>
      some (.obj [("accuracy", .float p.accuracy),
        ("address", .null),
        ("altitude", .float p.altitude),
        ("attributes", p.attributes.to_dict),
        ("course", .float p.course),
        ("deviceId", .int p.device_id),
        ("deviceTime", p.device_time.isoformat),
        ("fixTime", p.fix_time.isoformat),
        ("bike_id", .int p.bike_id),
        ("latitude", .float p.latitude),
        ("longitude", .float p.longitude),
        ("network", .null),
        ("outdated", .bool p.outdated),
        ("protocol", .str p.protocol),
        ("serverTime", p.server_time.isoformat),
        ("speed", .float p.speed),
        ("type", v),
        ("valid", .bool p.valid)])
    | none => none
  | none => none

/-- models.py `SessionAttributes`. -/
structure SessionAttributes where
  app_environment : String
  app_package : String
  app_version : String
  fcm_tokens : List String
  locale : String
  send_analytics : Bool

/-- models.py `SessionAttributes.from_dict`. -/
def SessionAttributes.from_dict : JVal → Option SessionAttributes
  | .obj o =>
    match from_str (pyGet o "appEnvironment"),
      from_str (pyGet o "appPackage"),
      from_str (pyGet o "appVersion"),
      from_list from_str (pyGet o "fcmTokens"),
      from_str (pyGet o "locale"),
      from_bool (pyGet o "sendAnalytics") with
    | some app_environment, some app_package, some app_version,
      some fcm_tokens, some locale, some send_analytics =>
      some ⟨app_environment, app_package, app_version, fcm_tokens, locale,
        send_analytics⟩
    | _, _, _, _, _, _ => none
  | _ => none

/-- models.py `SessionAttributes.to_dict`. -/
def SessionAttributes.to_dict (a : SessionAttributes) : JVal :=
  .obj [("appEnvironment", .str a.app_environment),
    ("appPackage", .str a.app_package),
    ("appVersion", .str a.app_version),
    ("fcmTokens", .list (a.fcm_tokens.map .str)),
    ("locale", .str a.locale),
    ("sendAnalytics", .bool a.send_analytics)]

/-- models.py `Session`. `bike_id` is decoded from key `"id"`; `to_dict`
writes it back under key `"bike_id"`. Fields decoded with `from_none`
always hold `None` and are modelled as `Unit`. -/
structure Session where
  administrator : Bool
  attributes : SessionAttributes
  coordinate_format : Unit
  device_limit : Int
  device_readonly : Bool
  disabled : Bool
  email : String
  expiration_time : Unit
  bike_id : Int
  latitude : ℚ
  limit_commands : Bool
  login : Unit
  longitude : ℚ
  bike_map : Unit
  name : String
  password : Unit
  phone : Unit
  poi_layer : Unit
  readonly : Bool
  token : String
  twelve_hour_format : Bool
  user_limit : Int
  zoom : Int

/-- models.py `Session.from_dict` (reads the identifier from key `"id"`). -/
def Session.from_dict : JVal → Option Session
  | .obj o =>
    match from_bool (pyGet o "administrator"),
      SessionAttributes.from_dict (pyGet o "attributes"),
      from_none (pyGet o "coordinateFormat"),
      from_int (pyGet o "deviceLimit"),
      from_bool (pyGet o "deviceReadonly"),
      from_bool (pyGet o "disabled"),
      from_str (pyGet o "email"),
      from_none (pyGet o "expirationTime"),
      from_int (pyGet o "id"),
      from_float (pyGet o "latitude"),
      from_bool (pyGet o "limitCommands"),
      from_none (pyGet o "login"),
      from_float (pyGet o "longitude"),
      from_none (pyGet o "map"),
      from_str (pyGet o "name"),
      from_none (pyGet o "password"),
      from_none (pyGet o "phone"),
      from_none (pyGet o "poiLayer"),
      from_bool (pyGet o "readonly"),
      from_str (pyGet o "token"),
      from_bool (pyGet o "twelveHourFormat"),
      from_int (pyGet o "userLimit"),
      from_int (pyGet o "zoom") with
    | some administrator, some attributes, some _, some device_limit,
      some device_readonly, some disabled, some email, some _, some bike_id,
      some latitude, some limit_commands, some _, some longitude, some _,
      some name, some _, some _, some _, some readonly, some token,
      some twelve_hour_format, some user_limit, some zoom =>
      some ⟨administrator, attributes, (), device_limit, device_readonly,
        disabled, email, (), bike_id, latitude, limit_commands, (),
        longitude, (), name, (), (), (), readonly, token,
        twelve_hour_format, user_limit, zoom⟩
    | _, _, _, _, _, _, _, _, _, _, _, _, _, _, _, _, _, _, _, _, _, _, _ =>
      none
  | _ => none

/-- models.py `Session.to_dict` (writes the identifier under key
`"bike_id"`, not `"id"`). -/
def Session.to_dict (s : Session) : JVal :=
  .obj [("administrator", .bool s.administrator),
    ("attributes", s.attributes.to_dict),
    ("coordinateFormat", .null),
    ("deviceLimit", .int s.device_limit),
    ("deviceReadonly", .bool s.device_readonly),
    ("disabled", .bool s.disabled),
    ("email", .str s.email),
    ("expirationTime", .null),
    ("bike_id", .int s.bike_id),
    ("latitude", .float s.latitude),
    ("limitCommands", .bool s.limit_commands),
    ("login", .null),
    ("longitude", .float s.longitude),
    ("map", .null),
    ("name", .str s.name),
    ("password", .null),
    ("phone", .null),
    ("poiLayer", .null),
    ("readonly", .bool s.readonly),
    ("token", .str s.token),
    ("twelveHourFormat", .bool s.twelve_hour_format),
    ("userLimit", .int s.user_limit),
    ("zoom", .int s.zoom)]

/-- models.py `Subscription`. `bike_id` is decoded from key `"id"`;
`subscription_id` is decoded with `from_str` (default `"Unknown"`), so it
always holds a `str` — yet `to_dict` encodes it with `from_none`. -/
structure Subscription where
  category : String
  created_at : PyDateTime
  bike_id : Int
  setup_fee : Unit
  subscription_id : String
  trial_duration : Int
  trial_end : PyDateTime
  unique_id : String
  updated_at : PyDateTime

/-- models.py `Subscription.from_dict` (reads the identifier from key
`"id"`). -/
def Subscription.from_dict : JVal → Option Subscription
  | .obj o =>
    match from_str (pyGet o "category"),
      from_datetime (pyGet o "createdAt"),
      from_int (pyGet o "id"),
      from_none (pyGet o "setupFee"),
      from_str (pyGetD o "subscriptionId" (.str "Unknown")),
      from_int (pyGet o "trialDuration"),
      from_datetime (pyGet o "trialEnd"),
      from_str (pyGet o "uniqueId"),
      from_datetime (pyGet o "updatedAt") with
    | some category, some created_at, some bike_id, some _,
      some subscription_id, some trial_duration, some trial_end,
      some unique_id, some updated_at =>
      some ⟨category, created_at, bike_id, (), subscription_id,
        trial_duration, trial_end, unique_id, updated_at⟩
    | _, _, _, _, _, _, _, _, _ => none
  | _ => none

/-- models.py `Subscription.to_dict`: builds the dict entry by entry and
applies `from_none` to `self.subscription_id` at the `"subscriptionId"`
entry; since that field always holds a `str`, the assertion fails there
and the whole encode raises. -/
def Subscription.to_dict (s : Subscription) : Option JVal :=
  match from_none (.str s.subscription_id) with
  | some subId =>
    some (.obj [("category", .str s.category),
      ("createdAt", s.created_at.isoformat),
      ("bike_id", .int s.bike_id),
      ("setupFee", .null),
      ("subscriptionId", subId),
      ("trialDuration", .int s.trial_duration),
      ("trialEnd", s.trial_end.isoformat),
      ("uniqueId", .str s.unique_id),
      ("updatedAt", s.updated_at.isoformat)])
  | none => none

/-- models.py `Trip`. Keyed by `device_id` (key `"deviceId"` both ways). -/
structure Trip where
  average_speed : ℚ
  device_id : Int
  device_name : String
  distance : ℚ
  driver_name : Unit
  driver_unique_id : Unit
  duration : Int
  end_address : Unit
  end_lat : ℚ
  end_lon : ℚ
  end_odometer : ℚ
  end_position_id : Int
  end_time : PyDateTime
  max_speed : ℚ
  spent_fuel : ℚ
  start_address : Unit
  start_lat : ℚ
  start_lon : ℚ
  start_odometer : ℚ
  start_position_id : Int
  start_time : PyDateTime

/-- models.py `Trip.from_dict`. -/
def Trip.from_dict : JVal → Option Trip
  | .obj o =>
    match from_float (pyGet o "averageSpeed"),
      from_int (pyGet o "deviceId"),
      from_str (pyGet o "deviceName"),
      from_float (pyGet o "distance"),
      from_none (pyGet o "driverName"),
      from_none (pyGet o "driverUniqueId"),
      from_int (pyGet o "duration"),
      from_none (pyGet o "endAddress"),
      from_float (pyGet o "endLat"),
      from_float (pyGet o "endLon"),
      from_float (pyGet o "endOdometer"),
      from_int (pyGet o "endPositionId"),
      from_datetime (pyGet o "endTime"),
      from_float (pyGet o "maxSpeed"),
      from_float (pyGet o "spentFuel"),
      from_none (pyGet o "startAddress"),
      from_float (pyGet o "startLat"),
      from_float (pyGet o "startLon"),
      from_float (pyGet o "startOdometer"),
      from_int (pyGet o "startPositionId"),
      from_datetime (pyGet o "startTime") with
    | some average_speed, some device_id, some device_name, some distance,
      some _, some _, some duration, some _, some end_lat, some end_lon,
      some end_odometer, some end_position_id, some end_time,
      some max_speed, some spent_fuel, some _, some start_lat,
      some start_lon, some start_odometer, some start_position_id,
      some start_time =>
      some ⟨average_speed, device_id, device_name, distance, (), (),
        duration, (), end_lat, end_lon, end_odometer, end_position_id,
        end_time, max_speed, spent_fuel, (), start_lat, start_lon,
        start_odometer, start_position_id, start_time⟩
    | _, _, _, _, _, _, _, _, _, _, _, _, _, _, _, _, _, _, _, _, _ => none
  | _ => none

/-- models.py `Trip.to_dict`. -/
def Trip.to_dict (t : Trip) : JVal :=
  .obj [("averageSpeed", .float t.average_speed),
    ("deviceId", .int t.device_id),
    ("deviceName", .str t.device_name),
    ("distance", .float t.distance),
    ("driverName", .null),
    ("driverUniqueId", .null),
    ("duration", .int t.duration),
    ("endAddress", .null),
    ("endLat", .float t.end_lat),
    ("endLon", .float t.end_lon),
    ("endOdometer", .float t.end_odometer),
    ("endPositionId", .int t.end_position_id),
    ("endTime", t.end_time.isoformat),
    ("maxSpeed", .float t.max_speed),
    ("spentFuel", .float t.spent_fuel),
    ("startAddress", .null),
    ("startLat", .float t.start_lat),
    ("startLon", .float t.start_lon),
    ("startOdometer", .float t.start_odometer),
    ("startPositionId", .int t.start_position_id),
    ("startTime", t.start_time.isoformat)]

/-! Round-trip behaviour of the encoders and decoders. -/

theorem from_list_map_str (xs : List String) :
    from_list from_str (.list (xs.map .str)) = some xs := by
  simp only [from_list]
  induction xs with
  | nil => rfl
  | cons x xs ih =>
    simp only [from_list] at ih
    simp [from_list.mapList, from_str, ih]

theorem from_list_some_id (xs : List JVal) :
    from_list some (.list xs) = some xs := by
  simp only [from_list]
  induction xs with
  | nil => rfl
  | cons x xs ih =>
    simp only [from_list] at ih
    simp [from_list.mapList, ih]

theorem to_from_union_bool_none (x : Option Bool) :
    from_union_bool_none (to_union_bool_none x) = some x := by
  cases x <;> rfl

theorem to_from_union_str_none (x : Option String) :
    from_union_str_none (to_union_str_none x) = some x := by
  cases x <;> rfl

theorem to_from_union_int_none (x : Option Int) :
    from_union_int_none (to_union_int_none x) = some x := by
  cases x <;> rfl

/-- `Passport` survives the encode/decode round trip. -/
theorem passport_from_to (p : Passport) :
    Passport.from_dict p.to_dict = some p := by
  simp [Passport.from_dict, Passport.to_dict, pyGet, pyGetD, JObj.find?,
    from_str, from_bool, from_list_map_str, pyInt_pyStr]

/-- `DeviceAttributes` survives the encode/decode round trip. -/
theorem device_attributes_from_to (a : DeviceAttributes) :
    DeviceAttributes.from_dict a.to_dict = some a := by
  simp [DeviceAttributes.from_dict, DeviceAttributes.to_dict, pyGet, pyGetD,
    JObj.find?, from_str, from_bool, from_int, from_datetime,
    PyDateTime.isoformat, passport_from_to, to_from_union_bool_none]

/-- `PositionAttributes` survives the encode/decode round trip. -/
theorem position_attributes_from_to (a : PositionAttributes) :
    PositionAttributes.from_dict a.to_dict = some a := by
  simp [PositionAttributes.from_dict, PositionAttributes.to_dict, pyGet,
    JObj.find?, from_int, from_bool, from_float, to_from_union_str_none,
    to_from_union_bool_none, to_from_union_int_none]

/-- `SessionAttributes` survives the encode/decode round trip. -/
theorem session_attributes_from_to (a : SessionAttributes) :
    SessionAttributes.from_dict a.to_dict = some a := by
  simp [SessionAttributes.from_dict, SessionAttributes.to_dict, pyGet,
    JObj.find?, from_str, from_bool, from_list_map_str]

/-- `Trip` survives the encode/decode round trip. -/
theorem trip_from_to (t : Trip) : Trip.from_dict t.to_dict = some t := by
  simp [Trip.from_dict, Trip.to_dict, pyGet, JObj.find?, from_float,
    from_int, from_str, from_none, from_datetime, PyDateTime.isoformat]

/-- Decoding the encoding of a `Device` always fails: `to_dict` stores the
identifier under key `"bike_id"`, `from_dict` requires key `"id"`, and
`obj.get("id")` then yields `None`, on which `from_int` raises. -/
theorem device_from_to_fails (d : Device) :
    Device.from_dict d.to_dict = none := by
  simp [Device.from_dict, Device.to_dict, pyGet, pyGetD, JObj.find?,
    from_str, from_bool, from_int, from_datetime, PyDateTime.isoformat,
    device_attributes_from_to, from_list_some_id]

/-- Encoding a `Position` always fails: `to_dict` accesses the
nonexistent attribute `bike_type`, raising `AttributeError` before the
dict is completed. -/
theorem position_to_dict_fails (p : Position) :
    Position.to_dict p = none := by
  rfl

/-- Decoding the encoding of a `Session` always fails for the same
`"bike_id"` / `"id"` key mismatch. -/
theorem session_from_to_fails (s : Session) :
    Session.from_dict s.to_dict = none := by
  simp [Session.from_dict, Session.to_dict, pyGet, JObj.find?,
    from_float, from_bool, from_int, from_str, from_none, from_datetime,
    PyDateTime.isoformat, session_attributes_from_to]

/-- Encoding a `Subscription` always fails: `to_dict` applies `from_none`
to the `subscription_id` field, which always holds a `str`. -/
theorem subscription_to_dict_fails (s : Subscription) :
    Subscription.to_dict s = none := by
  rfl

/-! The client model of `aiobiketrax/client.py`. -/

/-- Kinds of Python exceptions the claims distinguish. -/
inductive PyErr where
  /-- `AttributeError`: attribute access on `None`
  (e.g. `self._device` is `None` and a method or attribute is taken). -/
  | attributeError : PyErr
  /-- A failed `assert` or `ValueError` inside the models.py decoding
  helpers (`from_int`, `from_str`, ...). -/
  | decodeError : PyErr
  /-- `aiohttp.ClientError`: a transport-level failure. -/
  | transportError : PyErr
  /-- `api.NotFoundError`: a referenced record is absent upstream. -/
  | notFoundError : PyErr
deriving DecidableEq

/-- Association-list read, Python `dict.get(k)` on an id-keyed mapping. -/
def mapGet? : List (Int × α) → Int → Option α
  | [], _ => none
  | (k2, v) :: rest, k => if k = k2 then some v else mapGet? rest k

/-- Association-list write, Python `dict[k] = v`. -/
def mapSet : List (Int × α) → Int → α → List (Int × α)
  | [], k, v => [(k, v)]
  | (k2, v2) :: rest, k, v =>
    if k = k2 then (k, v) :: rest else (k2, v2) :: mapSet rest k v

/-- The in-memory cache of `Account`: four mappings keyed by device id.
(`_subscriptions` is annotated `Dict[str, ...]` in the source, but every
runtime access — `Device.update_subscription` and `Device._subscription` —
keys it by the integer device id `self._id`, so it is modelled with `Int`
keys like the others.) -/
structure AccountState where
  devices : List (Int × Device)
  positions : List (Int × Position)
  trips : List (Int × Trip)
  subscriptions : List (Int × Subscription)

/-- client.py `Account.update_devices` (lines 45-49): replaces the
`_devices` mapping wholesale with the fetched list keyed by `bike_id`.
It touches no other mapping. -/
def update_devices (s : AccountState) (fetched : List Device) : AccountState :=
  { s with devices := fetched.map (fun d => (d.bike_id, d)) }

/-- A device record with its `guarded` attribute set to `true` — the
result of the assignment `device.attributes.guarded = True` on line 180. -/
def withGuardedTrue (dev : Device) : Device :=
  { dev with attributes := { dev.attributes with guarded := true } }

/-- An admin API call issued by `Device.set_guarded`, addressed by the
device's unique id. -/
inductive AdminCall where
  | arm : String → AdminCall
  | disarm : String → AdminCall
deriving DecidableEq

/-- client.py `Device.set_guarded` (lines 172-180). `admin` is the
behaviour of the admin API (`none` = the HTTP call succeeded). Returns the
resulting cache state, the admin calls issued, and the exception raised,
if any:

* `self._device` is `self._account._devices.get(self._id)`; when the entry
  is absent it is `None` and `self._device.unique_id` raises
  `AttributeError` before any admin call;
* otherwise `post_arm` is called when `guarded` is true, `post_disarm`
  when it is false, both with `self._device.unique_id`;
* then `self._device.attributes.guarded = True` sets the cached device's
  guarded attribute to `True` — regardless of the requested value and
  without re-fetching the record. -/
def set_guarded (s : AccountState) (id : Int) (guarded : Bool)
    (admin : AdminCall → Option PyErr) :
    AccountState × List AdminCall × Option PyErr :=
  match mapGet? s.devices id with
  | none => (s, [], some .attributeError)
  | some dev =>
    let call := if guarded then AdminCall.arm dev.unique_id
      else AdminCall.disarm dev.unique_id
    match admin call with
    | some e => (s, [call], some e)
    | none =>
      ({ s with devices := mapSet s.devices id (withGuardedTrue dev) },
        [call], none)

/-- client.py `Device.set_stolen` (lines 182-190). `put_device` is the
behaviour of `traccar_api.put_device` (the authoritative server write):

* when the cache entry is absent, `self._device` is `None` and
  `self._device.to_dict()` raises `AttributeError`;
* otherwise the record is cloned with
  `models.Device.from_dict(self._device.to_dict())` — the decode of its
  own encode — and a failure there raises before any server write;
* otherwise the clone's `stolen` attribute is set and the server response
  replaces the cache entry wholesale. -/
def set_stolen (s : AccountState) (id : Int) (stolen : Bool)
    (put_device : Device → Except PyErr Device) :
    AccountState × Option PyErr :=
  match mapGet? s.devices id with
  | none => (s, some .attributeError)
  | some dev =>
    match Device.from_dict dev.to_dict with
    | none => (s, some .decodeError)
    | some clone =>
      let clone2 := { clone with attributes :=
        { clone.attributes with stolen := some stolen } }
      match put_device clone2 with
      | .error e => (s, some e)
      | .ok resp => ({ s with devices := mapSet s.devices id resp }, none)

/-- client.py `Device.set_tracking_enabled` (lines 192-200): identical
clone-mutate-write-replace shape, toggling `disabled` (inverted sense). -/
def set_tracking_enabled (s : AccountState) (id : Int)
    (tracking_enabled : Bool) (put_device : Device → Except PyErr Device) :
    AccountState × Option PyErr :=
  match mapGet? s.devices id with
  | none => (s, some .attributeError)
  | some dev =>
    match Device.from_dict dev.to_dict with
    | none => (s, some .decodeError)
    | some clone =>
      let clone2 := { clone with disabled := !tracking_enabled }
      match put_device clone2 with
      | .error e => (s, some e)
      | .ok resp => ({ s with devices := mapSet s.devices id resp }, none)

/-! The websocket supervisor loop, client.py `Account.update_task`
(lines 72-115). One `while True` iteration opens a socket and consumes it;
for the error counter and the delay between reconnection attempts, only
the way each connection ends and how many messages it delivered matter:
`errors = 0` runs at the top of the `async for` body for every received
message, before the record dispatch. -/

/-- How one connection attempt ends: the server closes the stream cleanly
(`async for` finishes), or a transport error (`aiohttp.ClientError`) is
raised; `msgCount` is the number of messages received before that. -/
inductive ConnOutcome where
  | graceful : Nat → ConnOutcome
  | transportError : Nat → ConnOutcome

/-- The error counter after a connection delivered `msgCount` messages:
each message resets it to zero (client.py line 89). -/
def errorsAfterMessages (errors msgCount : Nat) : Nat :=
  if 0 < msgCount then 0 else errors

/-- The argument passed to `asyncio.sleep` on a transport error
(client.py line 115): `min(errors, 8) ** 2`. -/
def backoffSeconds (errors : Nat) : Nat := min errors 8 ^ 2

/-- One iteration of the `update_task` loop: the error counter after the
iteration, and the delay actually awaited before the next connection
attempt. On graceful termination the loop re-enters immediately. On a
transport error the counter is incremented (line 114) and
`asyncio.sleep(min(errors, 8) ** 2)` is evaluated on line 115 — but the
coroutine it returns is never awaited, so no delay elapses before the
reconnect either. -/
def update_task_step (errors : Nat) : ConnOutcome → Nat × Nat
  | .graceful m => (errorsAfterMessages errors m, 0)
  | .transportError m => (errorsAfterMessages errors m + 1, 0)

/-- A run of the supervisor over a sequence of connection outcomes:
final error counter and the list of delays awaited between attempts. -/
def update_task_run (errors : Nat) : List ConnOutcome → Nat × List Nat
  | [] => (errors, [])
  | o :: os =>
    let e2 := (update_task_step errors o).1
    let r := update_task_run e2 os
    (r.1, (update_task_step errors o).2 :: r.2)

/-! Cache-mutation discipline at the object level (for the immutability
claim). Python mapping entries are references to heap objects; an
operation can either re-point an entry at a new object (wholesale
replacement) or assign a field of the object an existing entry points to
(in-place mutation). `DevHeap` models the heap of `models.Device` objects
and the `_devices` mapping holds references into it. -/

/-- A heap of `models.Device` objects; a reference is an index. -/
structure DevHeap where
  cells : List Device

/-- Dereference. -/
def DevHeap.read (h : DevHeap) (r : Nat) : Option Device := h.cells.get? r

/-- Assign the object at reference `r` (in-place field update writes
through here). -/
def DevHeap.write (h : DevHeap) (r : Nat) (d : Device) : DevHeap :=
  ⟨h.cells.set r d⟩

/-- Allocate a fresh object, returning its reference. -/
def DevHeap.alloc (h : DevHeap) (d : Device) : DevHeap × Nat :=
  (⟨h.cells ++ [d]⟩, h.cells.length)

/-- client.py line 180 at the object level:
`self._device.attributes.guarded = True` assigns a field of the object the
`_devices` mapping already points to. The mapping itself is unchanged; the
heap cell behind the existing reference is overwritten. -/
def set_guarded_heap (h : DevHeap) (m : List (Int × Nat)) (id : Int) :
    DevHeap × List (Int × Nat) :=
  match mapGet? m id with
  | none => (h, m)
  | some r =>
    match h.read r with
    | none => (h, m)
    | some dev => (h.write r (withGuardedTrue dev), m)

/-- client.py lines 97-98 at the object level:
`self._devices[update.bike_id] = update` re-points the mapping entry at
the freshly decoded stream object; previously stored objects are not
touched. -/
def stream_device_update_heap (h : DevHeap) (m : List (Int × Nat))
    (d : Device) : DevHeap × List (Int × Nat) :=
  ((h.alloc d).1, mapSet m d.bike_id (h.alloc d).2)

/-! Concrete example values for counterexamples and witnesses. -/

/-- A concrete passport record. -/
def exPassport : Passport :=
  ⟨[], "city", "red", "none", "F123", false, "Acme", "M1", 100, []⟩

/-- A concrete device attribute record (guarded is `false`, stolen is the
no-value sentinel). -/
def exAttributes : DeviceAttributes :=
  ⟨false, false, 25, false, "auto", 0, exPassport,
    ⟨"2022-03-01T00:00:00+00:00"⟩, none⟩

/-- A concrete device record with id 1. -/
def exDevice : Device :=
  ⟨exAttributes, "Unknown", "Unknown", false, [], 7, 1,
    ⟨"2022-03-05T12:00:00+00:00"⟩, "Unknown", "My bike", "Unknown", 42,
    "online", "123456789012345"⟩

/-- A concrete position attribute record. -/
def exPositionAttributes : PositionAttributes :=
  ⟨95, false, 0, 3, false, false, 0, 1500, none, none, none⟩

/-- A concrete position record for device id 1. -/
def exPosition : Position :=
  ⟨10, (), 12, exPositionAttributes, 0, 1, ⟨"2022-03-05T12:00:00+00:00"⟩,
    ⟨"2022-03-05T12:00:00+00:00"⟩, 900, 52, 5, (), false, "teltonika",
    ⟨"2022-03-05T12:00:01+00:00"⟩, 0, (), true⟩

/-- A cache state holding only the device record for id 1. -/
def exState : AccountState := ⟨[(1, exDevice)], [], [], []⟩

/-- The empty cache state. -/
def exEmpty : AccountState := ⟨[], [], [], []⟩

/-- A valid decode input for `exPassport`. -/
def exPassportObj : List (String × JVal) :=
  [("bikePictures", .list []), ("bikeType", .str "city"),
    ("colour", .str "red"), ("engine", .str "none"),
    ("frameNumber", .str "F123"), ("insurance", .bool false),
    ("manufacturer", .str "Acme"), ("model", .str "M1"),
    ("price", .str "100"), ("receiptPictures", .list [])]

/-- A valid decode input for `exAttributes`. -/
def exAttributesObj : List (String × JVal) :=
  [("alarm", .bool false), ("autoGuard", .bool false),
    ("geofenceRadius", .int 25), ("guarded", .bool false),
    ("guardType", .str "auto"), ("lastAlarm", .int 0),
    ("passport", .obj exPassportObj),
    ("trialEnd", .str "2022-03-01T00:00:00+00:00"), ("stolen", .null)]

/-- A valid decode input for `exDevice` (identifier under key `"id"`, as
the API sends it). -/
def exDeviceObj : List (String × JVal) :=
  [("attributes", .obj exAttributesObj), ("category", .str "Unknown"),
    ("contact", .str "Unknown"), ("disabled", .bool false),
    ("geofenceIds", .list []), ("groupId", .int 7), ("id", .int 1),
    ("lastUpdate", .str "2022-03-05T12:00:00+00:00"),
    ("model", .str "Unknown"), ("name", .str "My bike"),
    ("phone", .str "Unknown"), ("positionId", .int 42),
    ("status", .str "online"), ("uniqueId", .str "123456789012345")]

/-- `exPassportObj` with the `"colour"` entry removed. -/
def exPassportObjNoColour : List (String × JVal) :=
  [("bikePictures", .list []), ("bikeType", .str "city"),
    ("engine", .str "none"),
    ("frameNumber", .str "F123"), ("insurance", .bool false),
    ("manufacturer", .str "Acme"), ("model", .str "M1"),
    ("price", .str "100"), ("receiptPictures", .list [])]

/-- `exPassportObjNoColour` with an explicit `"colour": "Unknown"` entry. -/
def exPassportObjUnknownColour : List (String × JVal) :=
  ("colour", .str "Unknown") :: exPassportObjNoColour

/-- `exAttributesObj` without its `"stolen"` entry. -/
def exAttributesObjNoStolen : List (String × JVal) :=
  [("alarm", .bool false), ("autoGuard", .bool false),
    ("geofenceRadius", .int 25), ("guarded", .bool false),
    ("guardType", .str "auto"), ("lastAlarm", .int 0),
    ("passport", .obj exPassportObj),
    ("trialEnd", .str "2022-03-01T00:00:00+00:00")]

/-- An absent `"stolen"` key decodes to the explicit no-value sentinel:
`obj.get("stolen")` is `None` and
`from_union([from_bool, from_none], None)` selects `from_none`. -/
theorem stolen_absent_sentinel (o : List (String × JVal))
    (hno : JObj.find? o "stolen" = none) (a : DeviceAttributes)
    (hdec : DeviceAttributes.from_dict (.obj o) = some a) : a.stolen = none := by
  simp only [DeviceAttributes.from_dict, pyGet, hno, Option.getD_none,
    from_union_bool_none] at hdec
  split at hdec
  next heq =>
    rw [Option.some_inj] at hdec
    subst hdec
    simp_all
  next => exact absurd hdec (by simp)

/-! Claim theorems. -/

/-- C1 counterexample: `exDevice` is obtained from a valid decode input,
yet decoding its own encoding fails — `to_dict` stores the identifier
under `"bike_id"` while `from_dict` requires `"id"` — so
`from_dict(to_dict(r)) == r` does not hold for every record type. -/
theorem c1_roundtrip_counterexample :
    Device.from_dict (.obj exDeviceObj) = some exDevice ∧
    Device.from_dict (Device.to_dict exDevice) = none :=
  ⟨rfl, device_from_to_fails exDevice⟩

/-- C1 (amended): the decode/encode round trip
`from_dict(to_dict(r)) == r` holds for `Passport`, `DeviceAttributes`,
`PositionAttributes`, `SessionAttributes` and `Trip` (timestamps
reproduced via their canonical ISO-8601 serialization), but fails for
every `Device` and `Session` because `to_dict` emits the identifier under
key `"bike_id"` while `from_dict` requires key `"id"`, so the decode
raises; and for every `Position` and `Subscription` because `to_dict`
itself raises before any decode can run — `Position.to_dict` accesses the
nonexistent attribute `bike_type` (`AttributeError`), and
`Subscription.to_dict` applies `from_none` to the always-string
`subscription_id` field (failed assertion). -/
theorem c1_roundtrip_amended :
    (∀ p : Passport, Passport.from_dict p.to_dict = some p) ∧
    (∀ a : DeviceAttributes, DeviceAttributes.from_dict a.to_dict = some a) ∧
    (∀ a : PositionAttributes,
      PositionAttributes.from_dict a.to_dict = some a) ∧
    (∀ a : SessionAttributes, SessionAttributes.from_dict a.to_dict = some a) ∧
    (∀ t : Trip, Trip.from_dict t.to_dict = some t) ∧
    (∀ d : Device, Device.from_dict d.to_dict = none) ∧
    (∀ s : Session, Session.from_dict s.to_dict = none) ∧
    (∀ p : Position, Position.to_dict p = none) ∧
    (∀ s : Subscription, Subscription.to_dict s = none) :=
  ⟨passport_from_to, device_attributes_from_to, position_attributes_from_to,
    session_attributes_from_to, trip_from_to, device_from_to_fails,
    session_from_to_fails, position_to_dict_fails,
    subscription_to_dict_fails⟩

/-- C2 counterexample: starting from a cache with a `Position` entry for
device id 1, `update_devices` with an upstream list not containing id 1
replaces the `Device` mapping but leaves the orphaned `Position` entry in
place — nothing is purged from the other mappings. -/
theorem c2_orphan_counterexample :
    (update_devices ⟨[(1, exDevice)], [(1, exPosition)], [], []⟩ []).devices
      = [] ∧
    (update_devices ⟨[(1, exDevice)], [(1, exPosition)], [], []⟩ []).positions
      = [(1, exPosition)] :=
  ⟨rfl, rfl⟩

/-- C2 (amended): `update_devices` replaces the `Device` mapping wholesale
with the fetched list keyed by `bike_id` and leaves the `Position`, `Trip`
and `Subscription` mappings exactly as they were — entries of device ids
absent from the new list are not removed from them. -/
theorem c2_update_devices_amended (s : AccountState) (fetched : List Device) :
    update_devices s fetched =
      ⟨fetched.map (fun d => (d.bike_id, d)), s.positions, s.trips,
        s.subscriptions⟩ :=
  rfl

/-- C3: for every cached device, `set_stolen` and `set_tracking_enabled`
fail before any server write — the clone step decodes the record's own
encoding, and `Device.to_dict` emits the identifier under `"bike_id"`
while `Device.from_dict` requires `"id"`, so the decode fails on every
input the encode produces; the result does not depend on the server
behaviour `put`, and the cache is returned unchanged. -/
theorem c3_clone_decode_always_fails (s : AccountState) (id : Int) (b : Bool)
    (put : Device → Except PyErr Device) (dev : Device)
    (h : mapGet? s.devices id = some dev) :
    set_stolen s id b put = (s, some .decodeError) ∧
    set_tracking_enabled s id b put = (s, some .decodeError) := by
  constructor
  · simp [set_stolen, h, device_from_to_fails]
  · simp [set_tracking_enabled, h, device_from_to_fails]

/-- C3 witness: the device with id 1 is cached in `exState`, and both
mutating operations fail with the decode error, leaving the state
unchanged, even though the server would accept every write. -/
theorem c3_clone_decode_always_fails_witness :
    mapGet? exState.devices 1 = some exDevice ∧
    set_stolen exState 1 true (fun d => .ok d)
      = (exState, some .decodeError) ∧
    set_tracking_enabled exState 1 true (fun d => .ok d)
      = (exState, some .decodeError) :=
  ⟨rfl, (c3_clone_decode_always_fails exState 1 true (fun d => .ok d)
      exDevice rfl).1,
    (c3_clone_decode_always_fails exState 1 true (fun d => .ok d)
      exDevice rfl).2⟩

/-- C4 (code bug): the argument computed for `asyncio.sleep` follows the
claimed capped sequence `1, 4, 9, 16, 25, 36, 49, 64, 64, ...`, and a
transport error with no prior message increments the counter from 0 to 1 —
but the delay actually awaited before the next reconnection attempt is 0,
because the sleep coroutine on client.py line 115 is never awaited: three
consecutive transport errors yield error count 3 with awaited delays
`[0, 0, 0]` instead of the claimed `[1, 4, 9]`. -/
theorem c4_backoff_computed_not_awaited :
    ((List.range 10).map fun i => backoffSeconds (i + 1))
      = [1, 4, 9, 16, 25, 36, 49, 64, 64, 64] ∧
    update_task_step 0 (.transportError 0) = (1, 0) ∧
    update_task_run 0 [.transportError 0, .transportError 0,
      .transportError 0] = (3, [0, 0, 0]) :=
  ⟨by decide, rfl, rfl⟩

/-- C5 counterexample: after two transport errors, a connection that is
established and then terminates gracefully having delivered zero messages
leaves the error counter at 2 — it is not reset to zero "regardless of how
many messages (possibly zero) were received". -/
theorem c5_graceful_counterexample :
    (update_task_run 0 [.transportError 0, .transportError 0,
      .graceful 0]).1 = 2 ∧
    (update_task_run 0 [.transportError 0, .transportError 0,
      .graceful 0]).1 ≠ 0 :=
  ⟨rfl, by decide⟩

/-- C5 (amended): on graceful stream termination the supervisor re-enters
the connection loop immediately with no backoff delay, but the error
counter is reset to zero only if at least one message was received on the
terminated connection; with zero messages it keeps its prior value. -/
theorem c5_graceful_amended (e m : Nat) :
    update_task_step e (.graceful m) = (if 0 < m then 0 else e, 0) :=
  rfl

/-- C6 counterexample: with an empty cache, each mutating operation fails
with `AttributeError` (attribute access on `None`), not with
`NotFoundError`. -/
theorem c6_notfound_counterexample :
    set_guarded exEmpty 1 true (fun _ => none)
      = (exEmpty, [], some .attributeError) ∧
    set_stolen exEmpty 1 true (fun d => .ok d)
      = (exEmpty, some .attributeError) ∧
    set_tracking_enabled exEmpty 1 true (fun d => .ok d)
      = (exEmpty, some .attributeError) ∧
    PyErr.attributeError ≠ PyErr.notFoundError :=
  ⟨rfl, rfl, rfl, by decide⟩

/-- C6 (amended): when the underlying `Device` cache entry is absent,
`self._account._devices.get(self._id)` is `None`, so each mutating
operation fails with `AttributeError` raised by the attribute access on
`None` — before any API call and before any cache change — not with
`NotFoundError`. -/
theorem c6_absent_device_attribute_error (s : AccountState) (id : Int)
    (g b t : Bool) (admin : AdminCall → Option PyErr)
    (put put2 : Device → Except PyErr Device)
    (h : mapGet? s.devices id = none) :
    set_guarded s id g admin = (s, [], some .attributeError) ∧
    set_stolen s id b put = (s, some .attributeError) ∧
    set_tracking_enabled s id t put2 = (s, some .attributeError) := by
  refine ⟨?_, ?_, ?_⟩ <;>
    simp [set_guarded, set_stolen, set_tracking_enabled, h]

/-- C6 witness: the amended statement applied to the empty cache. -/
theorem c6_absent_device_attribute_error_witness :
    set_guarded exEmpty 2 false (fun _ => none)
      = (exEmpty, [], some .attributeError) ∧
    set_stolen exEmpty 2 false (fun d => .ok d)
      = (exEmpty, some .attributeError) ∧
    set_tracking_enabled exEmpty 2 false (fun d => .ok d)
      = (exEmpty, some .attributeError) :=
  c6_absent_device_attribute_error exEmpty 2 false false false
    (fun _ => none) (fun d => .ok d) (fun d => .ok d) rfl

/-- C7 counterexample: `set_guarded` does not replace the cache entry
wholesale — it mutates a field of the record already stored. At the object
level, the `_devices` mapping still points at the same reference (0), but
the object behind that reference changed from guarded `false` to guarded
`true` in place. -/
theorem c7_inplace_counterexample :
    (set_guarded_heap ⟨[exDevice]⟩ [(1, 0)] 1).2 = [(1, 0)] ∧
    ((set_guarded_heap ⟨[exDevice]⟩ [(1, 0)] 1).1.read 0).map
      (fun d => d.attributes.guarded) = some true ∧
    ((⟨[exDevice]⟩ : DevHeap).read 0).map
      (fun d => d.attributes.guarded) = some false :=
  ⟨rfl, rfl, rfl⟩

/-- C7 (amended): the stream handler replaces cache entries wholesale — a
`Device` stream update allocates a fresh object and re-points the mapping,
leaving every previously stored object untouched — but `set_guarded`
mutates the `guarded` field of the already-stored record in place through
the reference held by the mapping, without replacing the entry. -/
theorem c7_mutation_amended :
    (∀ (h : DevHeap) (m : List (Int × Nat)) (d : Device) (r : Nat),
      r < h.cells.length →
      ((stream_device_update_heap h m d).1).read r = h.read r) ∧
    (∀ (h : DevHeap) (m : List (Int × Nat)) (id : Int) (r : Nat)
      (dev : Device), mapGet? m id = some r → h.read r = some dev →
      set_guarded_heap h m id = (h.write r (withGuardedTrue dev), m)) := by
  constructor
  · intro h m d r hr
    simp [stream_device_update_heap, DevHeap.alloc, DevHeap.read,
      List.getElem?_append_left hr]
  · intro h m id r dev h1 h2
    simp [set_guarded_heap, h1, h2]

/-- C7 witness: the amended statement applied to a one-object heap. -/
theorem c7_mutation_amended_witness :
    ((stream_device_update_heap ⟨[exDevice]⟩ [(1, 0)] exDevice).1).read 0
      = DevHeap.read ⟨[exDevice]⟩ 0 ∧
    set_guarded_heap ⟨[exDevice]⟩ [(1, 0)] 1 =
      (DevHeap.write ⟨[exDevice]⟩ 0 (withGuardedTrue exDevice), [(1, 0)]) :=
  ⟨c7_mutation_amended.1 ⟨[exDevice]⟩ [(1, 0)] exDevice 0 (by decide),
    c7_mutation_amended.2 ⟨[exDevice]⟩ [(1, 0)] 1 0 exDevice rfl rfl⟩

/-- C8: for every cached device and boolean `g`, `set_guarded g` issues
the admin arm call when `g` is true and the admin disarm call when `g` is
false, addressed by the device's unique id; when the call succeeds it then
sets the cached device's `guarded` attribute to `true` regardless of `g`,
deriving the new cache entry from the record already in the cache (no
re-fetch: the result is a function of `dev` alone). -/
theorem c8_set_guarded_behaviour (s : AccountState) (id : Int) (g : Bool)
    (admin : AdminCall → Option PyErr) (dev : Device)
    (hdev : mapGet? s.devices id = some dev)
    (hok : admin (if g then AdminCall.arm dev.unique_id
      else AdminCall.disarm dev.unique_id) = none) :
    set_guarded s id g admin =
      ({ s with devices := mapSet s.devices id (withGuardedTrue dev) },
        [if g then AdminCall.arm dev.unique_id
          else AdminCall.disarm dev.unique_id], none) := by
  simp only [set_guarded, hdev, hok]

/-- C8 witness: `set_guarded false` on the cached device with id 1 issues
the disarm call for its unique id and still stores guarded = `true`. -/
theorem c8_set_guarded_behaviour_witness :
    mapGet? exState.devices 1 = some exDevice ∧
    set_guarded exState 1 false (fun _ => none) =
      ({ exState with devices := mapSet exState.devices 1 (withGuardedTrue exDevice) },
        [if false then AdminCall.arm exDevice.unique_id
          else AdminCall.disarm exDevice.unique_id], none) :=
  ⟨rfl, c8_set_guarded_behaviour exState 1 false (fun _ => none) exDevice
    rfl rfl⟩

/-- C9 counterexample: on a cached device whose server write would fail
with `TransportError`, `set_stolen true` does not surface that
`TransportError` — it never reaches the server write, failing with the
clone-step decode error instead (the cache is indeed left unchanged). -/
theorem c9_transport_counterexample :
    set_stolen exState 1 true (fun _ => .error .transportError)
      = (exState, some .decodeError) ∧
    PyErr.decodeError ≠ PyErr.transportError := by
  refine ⟨?_, by decide⟩
  simp [set_stolen, exState, mapGet?, device_from_to_fails]

/-- C9 (amended): for every cached device, `set_stolen true` fails before
the server write is issued — with the clone-step decode error, for every
server behaviour, so no `TransportError` from the write can reach the
caller — and the cache's prior `Device` record is unchanged after the
failed call. -/
theorem c9_set_stolen_amended (s : AccountState) (id : Int)
    (put : Device → Except PyErr Device) (dev : Device)
    (h : mapGet? s.devices id = some dev) :
    (set_stolen s id true put).1 = s ∧
    (set_stolen s id true put).2 = some .decodeError := by
  simp [set_stolen, h, device_from_to_fails]

/-- C9 witness: the amended statement at `exState` with a server that
fails every write with `TransportError`. -/
theorem c9_set_stolen_amended_witness :
    (set_stolen exState 1 true (fun _ => .error .transportError)).1
      = exState ∧
    (set_stolen exState 1 true (fun _ => .error .transportError)).2
      = some .decodeError :=
  c9_set_stolen_amended exState 1 (fun _ => .error .transportError)
    exDevice rfl

/-- C10 counterexample: an input without the `"colour"` key decodes to the
very same `Passport` as the input carrying `"colour": "Unknown"`, and the
decoded colour is the placeholder `"Unknown"` — an absent optional field
decoded to a default value indistinguishable from valid data, not to a
no-value sentinel. -/
theorem c10_default_counterexample :
    Passport.from_dict (.obj exPassportObjNoColour)
      = Passport.from_dict (.obj exPassportObjUnknownColour) ∧
    (Passport.from_dict (.obj exPassportObjNoColour)).map (fun p => p.colour)
      = some "Unknown" :=
  ⟨rfl, rfl⟩

/-- C10 (amended): fields of `Optional` type decode an unknown or absent
input to the explicit no-value sentinel (shown for
`DeviceAttributes.stolen`), but fields decoded with a placeholder default
(such as `Passport.colour`) decode an absent input to `"Unknown"` — a
value indistinguishable from valid data. -/
theorem c10_optional_amended :
    (∀ (o : List (String × JVal)) (a : DeviceAttributes),
      JObj.find? o "stolen" = none →
      DeviceAttributes.from_dict (.obj o) = some a → a.stolen = none) ∧
    (Passport.from_dict (.obj exPassportObjNoColour)).map (fun p => p.colour)
      = some "Unknown" :=
  ⟨fun o a hno hdec => stolen_absent_sentinel o hno a hdec, rfl⟩

/-- C10 witness: the sentinel half of the amended statement applied to a
concrete valid input without a `"stolen"` entry. -/
theorem c10_optional_amended_witness :
    JObj.find? exAttributesObjNoStolen "stolen" = none ∧
    DeviceAttributes.from_dict (.obj exAttributesObjNoStolen)
      = some exAttributes ∧
    exAttributes.stolen = none :=
  ⟨rfl, rfl, c10_optional_amended.1 exAttributesObjNoStolen exAttributes
    rfl rfl⟩
